import Mathlib

/-!
Shallow embedding of `src/app.py` (campground reporting dashboard).

The program is a Flask app with three routes:
  `/`                      -> `bookings`   (document-store booking list)
  `/summaries`             -> `summaries`  (relational-store daily summaries)
  `/booking-confirmation/booking-id:<int:booking_id>` -> `booking_confirmation_pdfs`
plus two connection helpers `head_office_db_connection` (pyodbc, SQL Server)
and `campground_mongo_db_connection` (pymongo, MongoDB).

Modelling choices, each noted at its definition:
  * environment variables are `Option String` (Python `os.environ.get`);
    Python truthiness of a string is "present and non-empty";
  * the outcome of the underlying store client (connect/ping, query) is an
    explicit `Except String _` field of the environment, carrying the error
    detail the library would raise;
  * `bytes`/BSON `Binary` values are `List Nat`;
  * dates are `Int` (only their order matters to the program);
  * each request handler returns its HTTP response together with counters of
    store connections it opened and closed, so the resource discipline of the
    exit paths is visible in the result.
-/

/-- Bytes of a stored binary value (Python `bytes` / BSON `Binary`). -/
abbrev Bytes := List Nat

/-- `class Campsite` of app.py: id, descriptive size, daily rate. -/
structure Campsite where
  site_id : Nat
  site_size : String
  daily_rate : Int
  deriving DecidableEq

/-- `class Customer` of app.py: five opaque string fields. -/
structure Customer where
  first_name : String
  last_name : String
  phone_no : String
  address : String
  post_code : String
  deriving DecidableEq

/-- `class Booking` of app.py.  `total_price` is the field the constructor
derives; `booking_confirmation_pdf` is the optional binary document. -/
structure Booking where
  booking_id : Nat
  customer : Customer
  campsites : List Campsite
  booking_date : Int
  arrival_date : Int
  total_price : Int
  booking_confirmation_pdf : Option Bytes
  deriving DecidableEq

/-- `Booking.calculate_total_price` (app.py lines 62-69): starts from 0 and
adds `campsite.daily_rate * 7` for each campsite of the booking. -/
def calculate_total_price (campsites : List Campsite) : Int :=
  campsites.foldl (fun acc c => acc + c.daily_rate * 7) 0

/-- `Booking.__init__` (app.py lines 53-60): stores the given fields and sets
`total_price := calculate_total_price` of the campsite list. -/
def Booking.make (booking_id : Nat) (customer : Customer) (campsites : List Campsite)
    (booking_date arrival_date : Int) (booking_confirmation_pdf : Option Bytes) : Booking :=
  { booking_id := booking_id
    customer := customer
    campsites := campsites
    booking_date := booking_date
    arrival_date := arrival_date
    total_price := calculate_total_price campsites
    booking_confirmation_pdf := booking_confirmation_pdf }

/-! ## Raw stored records (MongoDB documents, SQL rows) -/

/-- A campsite sub-document of a stored booking document. -/
structure RawCampsite where
  site_id : Nat
  site_size : String
  daily_rate : Int
  deriving DecidableEq

/-- The customer sub-document of a stored booking document. -/
structure RawCustomer where
  first_name : String
  last_name : String
  phone_no : String
  address : String
  post_code : String
  deriving DecidableEq

/-- A booking document of the `campground.booking` collection, with exactly the
fields app.py indexes.  `booking_confirmation_pdf := none` models a document in
which that key is absent; `some bs` a stored `Binary` with bytes `bs`. -/
structure RawBooking where
  booking_id : Nat
  customer : RawCustomer
  campsites : List RawCampsite
  booking_date : Int
  arrival_date : Int
  booking_confirmation_pdf : Option Bytes
  deriving DecidableEq

/-- A row of the fixed `camping.summary` query of the summaries handler. -/
structure SummaryRow where
  campground_id : Int
  summary_date : Int
  total_sales : Int
  total_bookings : Int
  deriving DecidableEq

/-! ## Python exceptions crossing the embedded code -/

/-- A Python exception raised inside a handler body.  `keyError` models a
dict lookup of an absent key; `httpException` models `flask.abort`, which
raises a werkzeug `HTTPException` — itself a subclass of `Exception`, so a
blanket `except Exception` clause catches it like any other error. -/
inductive HandlerErr where
  | keyError (key : String)
  | httpException (status : Nat) (description : String)
  deriving DecidableEq

/-! ## Environments and connection helpers -/

/-- Python truthiness of `os.environ.get(...)`: `None` and the empty string
are falsy, any other string is truthy. -/
def truthyStr : Option String → Bool
  | none => false
  | some s => !s.isEmpty

instance {ε α : Type} [DecidableEq ε] [DecidableEq α] : DecidableEq (Except ε α) := fun x y =>
  match x, y with
  | .ok a, .ok b =>
      if h : a = b then .isTrue (by rw [h])
      else .isFalse (by intro hc; injection hc; contradiction)
  | .error a, .error b =>
      if h : a = b then .isTrue (by rw [h])
      else .isFalse (by intro hc; injection hc; contradiction)
  | .ok _, .error _ => .isFalse (by intro hc; injection hc)
  | .error _, .ok _ => .isFalse (by intro hc; injection hc)

/-- State of the MongoDB store: the documents of the `campground.booking`
collection, in storage order. -/
structure MongoStore where
  bookings : List RawBooking
  deriving DecidableEq

/-- Environment seen by `campground_mongo_db_connection`: the
`CONNECTION_STRING` variable, and the outcome of constructing the client and
pinging the server (`.error detail` models the client library raising). -/
structure MongoEnv where
  connection_string : Option String
  connect : Except String MongoStore
  deriving DecidableEq

/-- Result of a connection helper: the returned value (`none` on failure),
whether a client connection was actually attempted, and the diagnostic the
helper logged, if any. -/
structure ConnResult (σ : Type) where
  conn : Option σ
  attemptedConnect : Bool
  loggedError : Option String
  deriving DecidableEq

/-- State of the SQL Server store: the outcome of running the summaries
handler's fixed query (`cursor.execute` + `fetchall`); `.error detail` models
the cursor raising during the query or the row fetch. -/
structure SqlStore where
  queryResult : Except String (List SummaryRow)
  deriving DecidableEq

/-- Environment seen by `head_office_db_connection`: the five required
variables, and the outcome of `pyodbc.connect` when it is attempted. -/
structure SqlEnv where
  driver : Option String
  server : Option String
  database : Option String
  db_username : Option String
  db_password : Option String
  connect : Except String SqlStore
  deriving DecidableEq

/-- The guard of app.py line 88: `all([driver, server, database, username,
password])` — true when every variable is present and non-empty. -/
def sqlEnvAllSet (env : SqlEnv) : Bool :=
  truthyStr env.driver && truthyStr env.server && truthyStr env.database &&
    truthyStr env.db_username && truthyStr env.db_password

/-- `head_office_db_connection` (app.py lines 73-105).  If any variable is
falsy it raises `ValueError` before touching `pyodbc.connect`; the enclosing
`except Exception` turns every failure into a logged message and `None`. -/
def head_office_db_connection (env : SqlEnv) : ConnResult SqlStore :=
  if sqlEnvAllSet env then
    match env.connect with
    | .ok s => { conn := some s, attemptedConnect := true, loggedError := none }
    | .error e =>
        { conn := none, attemptedConnect := true
          loggedError := some ("Error connecting to the head office database: " ++ e) }
  else
    { conn := none, attemptedConnect := false
      loggedError := some ("Error connecting to the head office database: " ++
        "Database connection environment variables are not fully set.") }

/-- `campground_mongo_db_connection` (app.py lines 108-125).  A falsy
`CONNECTION_STRING` raises `ValueError` before a client is built; otherwise
the client is built and pinged, and any exception is logged and turned into
`None` by the enclosing `except Exception`. -/
def campground_mongo_db_connection (env : MongoEnv) : ConnResult MongoStore :=
  if truthyStr env.connection_string then
    match env.connect with
    | .ok s => { conn := some s, attemptedConnect := true, loggedError := none }
    | .error e =>
        { conn := none, attemptedConnect := true
          loggedError := some ("Error connecting to the campgrounds MongoDB database: " ++ e) }
  else
    { conn := none, attemptedConnect := false
      loggedError := some ("Error connecting to the campgrounds MongoDB database: " ++
        "CONNECTION_STRING environment variable not set.") }

/-! ## Record normalization (the booking-list comprehension) -/

/-- One `Campsite(...)` construction of the comprehension (app.py 152-156). -/
def normalizeCampsite (c : RawCampsite) : Campsite :=
  { site_id := c.site_id, site_size := c.site_size, daily_rate := c.daily_rate }

/-- The `Customer(...)` construction of the comprehension (app.py 144-150). -/
def normalizeCustomer (c : RawCustomer) : Customer :=
  { first_name := c.first_name, last_name := c.last_name, phone_no := c.phone_no
    address := c.address, post_code := c.post_code }

/-- One `Booking(...)` construction of the comprehension (app.py 142-162).
Line 161 indexes `booking["booking_confirmation_pdf"]` unconditionally and
wraps it in `Binary`, so a document without that key raises `KeyError`. -/
def normalizeBooking (r : RawBooking) : Except HandlerErr Booking :=
  match r.booking_confirmation_pdf with
  | none => .error (.keyError "booking_confirmation_pdf")
  | some pdfBytes =>
      .ok (Booking.make r.booking_id (normalizeCustomer r.customer)
        (r.campsites.map normalizeCampsite) r.booking_date r.arrival_date (some pdfBytes))

/-- The list comprehension of app.py lines 141-164, built front to back over
the cursor; the first document that raises aborts the whole comprehension. -/
def normalizeBookings : List RawBooking → Except HandlerErr (List Booking)
  | [] => .ok []
  | r :: rest =>
      match normalizeBooking r with
      | .error e => .error e
      | .ok b =>
          match normalizeBookings rest with
          | .error e => .error e
          | .ok bs => .ok (b :: bs)

/-- Order used by the cursor sort `.sort("booking_date", 1)`. -/
def rawDateLe (a b : RawBooking) : Prop :=
  a.booking_date ≤ b.booking_date

instance : DecidableRel rawDateLe := fun a b => Int.decLe a.booking_date b.booking_date

instance : IsTotal RawBooking rawDateLe :=
  ⟨fun a b => Int.le_total a.booking_date b.booking_date⟩

instance : IsTrans RawBooking rawDateLe := ⟨fun _ _ _ => Int.le_trans⟩

/-- `booking_collection.find({}).sort("booking_date", 1)` (app.py line 139):
MongoDB returns the full collection ordered ascending by `booking_date`;
modelled with a concrete sort over the stored order. -/
def sortedBookingDocs (store : MongoStore) : List RawBooking :=
  List.insertionSort rawDateLe store.bookings

/-! ## HTTP responses and request handlers -/

/-- The body of an HTTP response the app can produce. -/
inductive Body where
  /-- `render_template` of `error.html` with the given message. -/
  | errorPage (message : String)
  /-- `render_template` of `bookings-dashboard.html` with the booking list. -/
  | bookingsPage (bookings : List Booking)
  /-- `render_template` of `summaries-dashboard.html` with the rows. -/
  | summariesPage (rows : List SummaryRow)
  /-- `send_file` of a binary with a download name. -/
  | pdfFile (bytes : Bytes) (download_name : String)
  /-- The framework's own 404 page when no route matches the request. -/
  | routeNotFound
  deriving DecidableEq

/-- An HTTP response: status code, content type, body. -/
structure Response where
  status : Nat
  mimetype : String
  body : Body
  deriving DecidableEq

/-- What a request handler produced: its response, and how many store
connections it opened and closed on the way (a failed connection helper
returns `None` and hands the handler nothing to close). -/
structure HandlerResult where
  response : Response
  opened : Nat
  closed : Nat
  deriving DecidableEq

/-- The `try` body of the `bookings` handler after a successful connection
(app.py lines 136-166): sort the collection, normalize every document, render
the dashboard.  A `KeyError` from the comprehension escapes as an error. -/
def bookings_body (store : MongoStore) : Except HandlerErr Response :=
  match normalizeBookings (sortedBookingDocs store) with
  | .error e => .error e
  | .ok bs => .ok { status := 200, mimetype := "text/html", body := .bookingsPage bs }

/-- The `bookings` handler, route `/` (app.py lines 128-172).  A failed
connection renders the generic error page with 500; any exception of the body
is caught by `except Exception` and rendered as the generic 500 page; the
`finally` block closes the client whenever one was acquired. -/
def bookings (env : MongoEnv) : HandlerResult :=
  match (campground_mongo_db_connection env).conn with
  | none =>
      { response := { status := 500, mimetype := "text/html"
                      body := .errorPage "Unable to connect to the database." }
        opened := 0, closed := 0 }
  | some store =>
      match bookings_body store with
      | .ok resp => { response := resp, opened := 1, closed := 1 }
      | .error _ =>
          { response := { status := 500, mimetype := "text/html"
                          body := .errorPage "An error occurred while fetching bookings." }
            opened := 1, closed := 1 }

/-- The `summaries` handler, route `/summaries` (app.py lines 175-204).  On a
failed connection it renders the generic 500 page having opened nothing.  On a
successful connection it runs the fixed query; on success it closes the cursor
and the connection (lines 198-199) and renders the rows; if the query or the
fetch raises, the `except` clause renders the generic 500 page — the handler
has no `finally`, so on that path the acquired connection is never closed. -/
def summaries (env : SqlEnv) : HandlerResult :=
  match (head_office_db_connection env).conn with
  | none =>
      { response := { status := 500, mimetype := "text/html"
                      body := .errorPage "Unable to connect to the database." }
        opened := 0, closed := 0 }
  | some store =>
      match store.queryResult with
      | .ok rows =>
          { response := { status := 200, mimetype := "text/html"
                          body := .summariesPage rows }
            opened := 1, closed := 1 }
      | .error _ =>
          { response := { status := 500, mimetype := "text/html"
                          body := .errorPage "An error occurred while fetching summaries." }
            opened := 1, closed := 0 }

/-- `booking_collection.find_one({"booking_id": booking_id})` (app.py 222):
the first stored document with the given `booking_id`, if any. -/
def find_one (docs : List RawBooking) (booking_id : Nat) : Option RawBooking :=
  docs.find? (fun b => b.booking_id == booking_id)

/-- The `try` body of the PDF handler after a successful connection (app.py
lines 218-235).  When the booking is absent, or present without the
`booking_confirmation_pdf` key, `abort(404, ...)` raises; otherwise
`send_file` returns the bytes as `application/pdf` named
`booking_<id>.pdf`. -/
def booking_confirmation_body (store : MongoStore) (booking_id : Nat) :
    Except HandlerErr Response :=
  match find_one store.bookings booking_id with
  | none => .error (.httpException 404 "Booking or PDF not found.")
  | some b =>
      match b.booking_confirmation_pdf with
      | none => .error (.httpException 404 "Booking or PDF not found.")
      | some pdfBytes =>
          .ok { status := 200, mimetype := "application/pdf"
                body := .pdfFile pdfBytes ("booking_" ++ toString booking_id ++ ".pdf") }

/-- The `booking_confirmation_pdfs` handler (app.py lines 207-241).  A failed
connection renders the generic 500 page.  Every exception of the body —
including the werkzeug `HTTPException` raised by `abort(404, ...)`, since
`HTTPException` subclasses `Exception` — is caught by the blanket
`except Exception` clause of line 236 and rendered as the generic 500 page,
so the 404 never reaches the caller.  The `finally` block closes the client
whenever one was acquired. -/
def booking_confirmation_pdfs (env : MongoEnv) (booking_id : Nat) : HandlerResult :=
  match (campground_mongo_db_connection env).conn with
  | none =>
      { response := { status := 500, mimetype := "text/html"
                      body := .errorPage "Unable to connect to the database." }
        opened := 0, closed := 0 }
  | some store =>
      match booking_confirmation_body store booking_id with
      | .ok resp => { response := resp, opened := 1, closed := 1 }
      | .error _ =>
          { response := { status := 500, mimetype := "text/html"
                          body := .errorPage "An error occurred while fetching the PDF." }
            opened := 1, closed := 1 }

/-- The werkzeug `int` path converter backing the route pattern
`<int:booking_id>` (app.py line 207): it matches a non-empty run of decimal
digits and converts it to the integer it spells; any other id segment fails to
match.  The segment is modelled as its character list. -/
def matchIntSegment (seg : List Char) : Option Nat :=
  if seg.isEmpty then none
  else if seg.all Char.isDigit then
    some (seg.foldl (fun n c => 10 * n + (c.toNat - 48)) 0)
  else none

/-- Routing for `/booking-confirmation/booking-id:<int:booking_id>`: when the
id segment matches the `int` converter the handler runs; otherwise the
framework answers 404 itself and the handler — and so any connection helper —
is never invoked. -/
def dispatch_booking_confirmation (env : MongoEnv) (seg : List Char) : HandlerResult :=
  match matchIntSegment seg with
  | some booking_id => booking_confirmation_pdfs env booking_id
  | none =>
      { response := { status := 404, mimetype := "text/html", body := .routeNotFound }
        opened := 0, closed := 0 }

/-! ## Concrete fixtures used to instantiate the theorems -/

/-- A concrete customer record used by the concrete store fixtures. -/
def sampleRawCustomer : RawCustomer :=
  { first_name := "Ada", last_name := "Lovelace", phone_no := "5550100"
    address := "1 Camp Road", post_code := "3000" }

/-- The `Customer` value `sampleRawCustomer` normalizes to. -/
def sampleCustomer : Customer := normalizeCustomer sampleRawCustomer

/-- A stored booking document whose `booking_confirmation_pdf` key is absent. -/
def rawBookingNoPdf : RawBooking :=
  { booking_id := 1, customer := sampleRawCustomer, campsites := []
    booking_date := 10, arrival_date := 20, booking_confirmation_pdf := none }

/-- A stored booking document with id 7 holding a binary document. -/
def rawBookingWithPdf : RawBooking :=
  { booking_id := 7, customer := sampleRawCustomer, campsites := []
    booking_date := 11, arrival_date := 21
    booking_confirmation_pdf := some [37, 80, 68, 70] }

/-- An environment whose document store holds only `rawBookingNoPdf`. -/
def mongoEnvNoPdf : MongoEnv :=
  { connection_string := some "mongodb+srv", connect := .ok { bookings := [rawBookingNoPdf] } }

/-- An environment whose document store holds only `rawBookingWithPdf`. -/
def mongoEnvWithPdf : MongoEnv :=
  { connection_string := some "mongodb+srv", connect := .ok { bookings := [rawBookingWithPdf] } }

/-- An environment whose document store holds no booking at all. -/
def mongoEnvEmptyStore : MongoEnv :=
  { connection_string := some "mongodb+srv", connect := .ok { bookings := [] } }

/-- An environment in which `CONNECTION_STRING` is unset. -/
def mongoEnvNoConnString : MongoEnv :=
  { connection_string := none, connect := .error "no client" }

/-- A relational environment with `DRIVER` unset and everything else in place. -/
def sqlEnvNoDriver : SqlEnv :=
  { driver := none, server := some "host", database := some "camping"
    db_username := some "user", db_password := some "pw"
    connect := .ok { queryResult := .ok [] } }

/-- A fully configured relational environment whose fixed summary query
raises after the connection succeeded. -/
def sqlEnvQueryRaises : SqlEnv :=
  { driver := some "ODBC Driver 18 for SQL Server", server := some "host"
    database := some "camping", db_username := some "user", db_password := some "pw"
    connect := .ok { queryResult := .error "Invalid object name camping.summary" } }

/-! ## Helper lemmas -/

/-- Unfolding of the `total_price` accumulation loop. -/
theorem calculate_total_price_eq (cs : List Campsite) :
    calculate_total_price cs = 7 * (cs.map Campsite.daily_rate).sum := by
  have h : ∀ (l : List Campsite) (acc : Int),
      l.foldl (fun a c => a + c.daily_rate * 7) acc
        = acc + 7 * (l.map Campsite.daily_rate).sum := by
    intro l
    induction l with
    | nil => intro acc; simp
    | cons c t ih =>
        intro acc
        simp only [List.foldl_cons, List.map_cons, List.sum_cons, ih]
        ring
  simpa [calculate_total_price] using h cs 0

/-! ## Claims -/

/-- C3: for every Booking constructed from a list of campsites with daily
rates r1..rn, its `total_price` equals `7 * (r1 + ... + rn)`, computed from
the campsite rates alone; campsites with rates 20 and 35 give 385, and an
empty campsite list gives 0. -/
theorem C3_total_price_is_seven_times_rate_sum :
    (∀ (id : Nat) (cust : Customer) (cs : List Campsite) (bd ad : Int)
        (pdf : Option Bytes),
        (Booking.make id cust cs bd ad pdf).total_price
          = 7 * (cs.map Campsite.daily_rate).sum)
    ∧ (Booking.make 1 sampleCustomer
        [{ site_id := 1, site_size := "Small", daily_rate := 20 },
         { site_id := 2, site_size := "Large", daily_rate := 35 }]
        0 0 none).total_price = 385
    ∧ (Booking.make 1 sampleCustomer [] 0 0 none).total_price = 0 := by
  refine ⟨?_, by decide, by decide⟩
  intro id cust cs bd ad pdf
  simpa [Booking.make] using calculate_total_price_eq cs

/-- C7: whenever one of the five required relational-store environment
variables is unset, `head_office_db_connection` returns `None` with the fixed
configuration diagnostic and never attempts to open a connection. -/
theorem C7_missing_relational_env_fails_fast (env : SqlEnv)
    (h : env.driver = none ∨ env.server = none ∨ env.database = none ∨
      env.db_username = none ∨ env.db_password = none) :
    (head_office_db_connection env).conn = none
    ∧ (head_office_db_connection env).attemptedConnect = false
    ∧ (head_office_db_connection env).loggedError =
        some ("Error connecting to the head office database: " ++
          "Database connection environment variables are not fully set.") := by
  have hset : sqlEnvAllSet env = false := by
    rcases h with h | h | h | h | h <;> simp [sqlEnvAllSet, truthyStr, h]
  simp [head_office_db_connection, hset]

/-- Witness for C7: the concrete environment with `DRIVER` unset. -/
theorem C7_missing_relational_env_fails_fast_witness :
    (head_office_db_connection sqlEnvNoDriver).conn = none
    ∧ (head_office_db_connection sqlEnvNoDriver).attemptedConnect = false
    ∧ (head_office_db_connection sqlEnvNoDriver).loggedError =
        some ("Error connecting to the head office database: " ++
          "Database connection environment variables are not fully set.") :=
  C7_missing_relational_env_fails_fast sqlEnvNoDriver (Or.inl rfl)

/-- C8: when the backing store connection fails, the booking-list and the
summaries handlers both answer 500 with the fixed generic error page — the
whole result is a constant, so the underlying error detail carried by the
environment never appears in the response. -/
theorem C8_connection_failure_yields_generic_500 (menv : MongoEnv) (senv : SqlEnv)
    (hm : (campground_mongo_db_connection menv).conn = none)
    (hs : (head_office_db_connection senv).conn = none) :
    bookings menv =
      { response := { status := 500, mimetype := "text/html"
                      body := .errorPage "Unable to connect to the database." }
        opened := 0, closed := 0 }
    ∧ summaries senv =
      { response := { status := 500, mimetype := "text/html"
                      body := .errorPage "Unable to connect to the database." }
        opened := 0, closed := 0 } := by
  constructor
  · simp [bookings, hm]
  · simp [summaries, hs]

/-- Witness for C8: concrete environments in which both connection helpers
fail (unset `CONNECTION_STRING`, unset `DRIVER`). -/
theorem C8_connection_failure_yields_generic_500_witness :
    bookings mongoEnvNoConnString =
      { response := { status := 500, mimetype := "text/html"
                      body := .errorPage "Unable to connect to the database." }
        opened := 0, closed := 0 }
    ∧ summaries sqlEnvNoDriver =
      { response := { status := 500, mimetype := "text/html"
                      body := .errorPage "Unable to connect to the database." }
        opened := 0, closed := 0 } :=
  C8_connection_failure_yields_generic_500 mongoEnvNoConnString sqlEnvNoDriver rfl rfl

/-- C9: both connection helpers are total at their interface: they return
`None` exactly on failure (missing configuration, or the store client
raising), and a value on success, so callers detect failure solely by the
`None` check. -/
theorem C9_connection_helpers_return_none_exactly_on_failure
    (senv : SqlEnv) (menv : MongoEnv) :
    ((head_office_db_connection senv).conn = none ↔
      (sqlEnvAllSet senv = false ∨ ∃ e, senv.connect = .error e))
    ∧ ((campground_mongo_db_connection menv).conn = none ↔
      (truthyStr menv.connection_string = false ∨ ∃ e, menv.connect = .error e)) := by
  constructor
  · unfold head_office_db_connection
    cases hset : sqlEnvAllSet senv with
    | false => simp [hset]
    | true =>
        cases hc : senv.connect with
        | ok s => simp [hset, hc]
        | error e => simp [hset, hc]
  · unfold campground_mongo_db_connection
    cases hset : truthyStr menv.connection_string with
    | false => simp [hset]
    | true =>
        cases hc : menv.connect with
        | ok s => simp [hset, hc]
        | error e => simp [hset, hc]

/-- C10: a request whose id segment does not match the `int` converter is
rejected by routing itself with 404: the handler body never runs and no store
connection is opened. -/
theorem C10_noninteger_segment_rejected_by_routing (env : MongoEnv) (seg : List Char)
    (h : matchIntSegment seg = none) :
    dispatch_booking_confirmation env seg =
      { response := { status := 404, mimetype := "text/html", body := .routeNotFound }
        opened := 0, closed := 0 } := by
  simp [dispatch_booking_confirmation, h]

/-- Witness for C10: the non-integer segment `abc` against a live store. -/
theorem C10_noninteger_segment_rejected_by_routing_witness :
    dispatch_booking_confirmation mongoEnvWithPdf [Char.ofNat 97, Char.ofNat 98, Char.ofNat 99] =
      { response := { status := 404, mimetype := "text/html", body := .routeNotFound }
        opened := 0, closed := 0 } :=
  C10_noninteger_segment_rejected_by_routing mongoEnvWithPdf
    [Char.ofNat 97, Char.ofNat 98, Char.ofNat 99] (by decide)

/-- C1 (the code fails this claim): normalizing a stored booking whose
`booking_confirmation_pdf` key is absent does not produce a Booking with an
absent document — line 161 indexes the key unconditionally, the lookup raises
`KeyError`, and the handler takes the error branch, answering 500. -/
theorem C1_missing_pdf_key_takes_error_branch :
    normalizeBooking rawBookingNoPdf = .error (.keyError "booking_confirmation_pdf")
    ∧ (bookings mongoEnvNoPdf).response =
        { status := 500, mimetype := "text/html"
          body := .errorPage "An error occurred while fetching bookings." } := by
  constructor <;> rfl

/-- C2 (the code fails this claim): requesting the confirmation of a booking
id absent from the store answers 500, not 404 — `abort(404, ...)` raises a
werkzeug `HTTPException`, a subclass of `Exception`, which the handler's own
blanket `except Exception` clause catches and turns into the generic 500
page. -/
theorem C2_not_found_answers_500_not_404 :
    booking_confirmation_body { bookings := [] } 7 =
      .error (.httpException 404 "Booking or PDF not found.")
    ∧ (booking_confirmation_pdfs mongoEnvEmptyStore 7).response =
        { status := 500, mimetype := "text/html"
          body := .errorPage "An error occurred while fetching the PDF." } := by
  constructor <;> rfl

/-- C4 (the code fails this claim): when the fixed summary query raises after
a successful connection, the summaries handler — which has no `finally` —
returns the 500 page with its acquired relational connection never closed. -/
theorem C4_summaries_leaks_connection_on_query_failure :
    (summaries sqlEnvQueryRaises).opened = 1
    ∧ (summaries sqlEnvQueryRaises).closed = 0
    ∧ (summaries sqlEnvQueryRaises).response.status = 500 := by
  refine ⟨rfl, rfl, rfl⟩

/-- C5: when the store holds a booking with the requested id and that booking
carries a confirmation document, the PDF endpoint answers 200 with
content type `application/pdf` and download name `booking_<id>.pdf` for the
requested id. -/
theorem C5_stored_pdf_served_as_attachment (env : MongoEnv) (store : MongoStore)
    (id : Nat) (b : RawBooking) (pdfBytes : Bytes)
    (hconn : (campground_mongo_db_connection env).conn = some store)
    (hfind : find_one store.bookings id = some b)
    (hpdf : b.booking_confirmation_pdf = some pdfBytes) :
    (booking_confirmation_pdfs env id).response =
      { status := 200, mimetype := "application/pdf"
        body := .pdfFile pdfBytes ("booking_" ++ toString id ++ ".pdf") } := by
  simp [booking_confirmation_pdfs, hconn, booking_confirmation_body, hfind, hpdf]

/-- Witness for C5: the store holding booking 7 with a stored document. -/
theorem C5_stored_pdf_served_as_attachment_witness :
    (booking_confirmation_pdfs mongoEnvWithPdf 7).response =
      { status := 200, mimetype := "application/pdf"
        body := .pdfFile [37, 80, 68, 70] ("booking_" ++ toString 7 ++ ".pdf") } :=
  C5_stored_pdf_served_as_attachment mongoEnvWithPdf { bookings := [rawBookingWithPdf] }
    7 rawBookingWithPdf [37, 80, 68, 70] rfl rfl rfl

/-! ## Sortedness helpers for C6 -/

/-- Order of the rendered booking list claimed by the spec. -/
def bookingDateLe (a b : Booking) : Prop :=
  a.booking_date ≤ b.booking_date

/-- A successfully normalized booking keeps its document's booking_date. -/
theorem normalizeBooking_ok_date (r : RawBooking) (b : Booking)
    (h : normalizeBooking r = .ok b) : b.booking_date = r.booking_date := by
  unfold normalizeBooking at h
  cases hp : r.booking_confirmation_pdf with
  | none => rw [hp] at h; exact absurd h (by simp)
  | some p =>
      rw [hp] at h
      injection h with h
      subst h
      rfl

/-- A successful run of the comprehension normalizes the documents pointwise. -/
theorem normalizeBookings_ok_forall₂ :
    ∀ (l : List RawBooking) (bs : List Booking),
      normalizeBookings l = .ok bs →
      List.Forall₂ (fun r b => normalizeBooking r = .ok b) l bs := by
  intro l
  induction l with
  | nil =>
      intro bs h
      simp only [normalizeBookings] at h
      injection h with h
      subst h
      exact .nil
  | cons r rest ih =>
      intro bs h
      simp only [normalizeBookings] at h
      cases hr : normalizeBooking r with
      | error e => rw [hr] at h; simp at h
      | ok b =>
          rw [hr] at h
          cases hrest : normalizeBookings rest with
          | error e => rw [hrest] at h; simp at h
          | ok tl =>
              rw [hrest] at h
              simp only [Except.ok.injEq] at h
              subst h
              exact .cons hr (ih tl hrest)

/-- Pointwise membership extraction from `List.Forall₂`. -/
theorem forall₂_mem_right {α β : Type} {R : α → β → Prop} :
    ∀ {l : List α} {bs : List β}, List.Forall₂ R l bs →
      ∀ b ∈ bs, ∃ r ∈ l, R r b := by
  intro l bs h
  induction h with
  | nil => intro b hb; cases hb
  | cons hrb htl ih =>
      intro b hb
      rcases List.mem_cons.mp hb with hb | hb
      · exact ⟨_, List.mem_cons_self _ _, hb ▸ hrb⟩
      · obtain ⟨r, hr, hR⟩ := ih b hb
        exact ⟨r, List.mem_cons_of_mem _ hr, hR⟩

/-- Normalization transports pairwise date order from documents to Bookings. -/
theorem normalizeBookings_pairwise {l : List RawBooking} {bs : List Booking}
    (hf : List.Forall₂ (fun r b => normalizeBooking r = .ok b) l bs)
    (hp : List.Pairwise rawDateLe l) : List.Pairwise bookingDateLe bs := by
  induction hf with
  | nil => exact .nil
  | cons hrb htl ih =>
      cases hp with
      | cons hhead htail =>
          refine .cons ?_ (ih htail)
          intro b' hb'
          obtain ⟨r', hr'mem, hr'⟩ := forall₂_mem_right htl b' hb'
          have hd := normalizeBooking_ok_date _ _ hrb
          have hd' := normalizeBooking_ok_date _ _ hr'
          have hle : rawDateLe _ r' := hhead r' hr'mem
          unfold bookingDateLe
          rw [hd, hd']
          exact hle

/-- C6: whatever the storage order of the document store, the booking list
the root endpoint renders is sorted ascending by booking_date. -/
theorem C6_booking_list_sorted_by_date (env : MongoEnv) (bs : List Booking)
    (h : (bookings env).response.body = .bookingsPage bs) :
    List.Pairwise bookingDateLe bs := by
  unfold bookings at h
  split at h
  · simp at h
  · rename_i store hc
    split at h
    · rename_i resp hok
      unfold bookings_body at hok
      split at hok
      · simp at hok
      · rename_i bs' hn
        simp only [Except.ok.injEq] at hok
        rw [← hok] at h
        simp only [Body.bookingsPage.injEq] at h
        subst h
        refine normalizeBookings_pairwise (normalizeBookings_ok_forall₂ _ _ hn) ?_
        have hs := List.sorted_insertionSort rawDateLe store.bookings
        simpa [List.Sorted, sortedBookingDocs] using hs
    · simp at h

/-- The store of the C6 witness: two documents in descending date order. -/
def mongoEnvTwoDocs : MongoEnv :=
  { connection_string := some "mongodb+srv"
    connect := .ok { bookings :=
      [{ booking_id := 2, customer := sampleRawCustomer, campsites := []
         booking_date := 50, arrival_date := 60
         booking_confirmation_pdf := some [1] },
       { booking_id := 1, customer := sampleRawCustomer, campsites := []
         booking_date := 30, arrival_date := 40
         booking_confirmation_pdf := some [2] }] } }

/-- The booking list the root endpoint renders for `mongoEnvTwoDocs`. -/
def twoDocsRendered : List Booking :=
  [Booking.make 1 sampleCustomer [] 30 40 (some [2]),
   Booking.make 2 sampleCustomer [] 50 60 (some [1])]

/-- Witness for C6: the two-document store, stored in descending date order,
is rendered ascending. -/
theorem C6_booking_list_sorted_by_date_witness :
    (bookings mongoEnvTwoDocs).response.body = Body.bookingsPage twoDocsRendered
    ∧ List.Pairwise bookingDateLe twoDocsRendered :=
  ⟨by decide, C6_booking_list_sorted_by_date mongoEnvTwoDocs twoDocsRendered (by decide)⟩
